import Mathlib

/-!
Shallow embedding of the kerror library (Conzxy/kerror).

The repository contains two revisions of its single header:
  * `src/kerror.h` (paired with `src/unnamed/part_001`): `Error` carries an
    `error_t errno_`, a mutable `checked_` flag and a `unique_ptr<IErrorInfo>`;
    success is `info_ == nullptr || errno_ == 0`.
  * `src/unnamed/part_000` (paired with `src/kerror.cc`): `Error` carries a
    `unique_ptr<IErrorInfo>`, a mutable `checked_` flag and a `bool is_error_`;
    success is `!is_error_`.
Both revisions are embedded below, as namespaces `V1` (kerror.h) and
`V2` (part_000).  State-mutating member functions are modelled as pure
functions from the receiver state to (result, new state); operations whose
C++ counterpart can terminate the process return `Option` (with `none`
standing for the abort path), or expose the abort decision as a `Bool`.
-/

namespace Kerror

/-- Payload of an error.  The polymorphic `IErrorInfo` is modelled by the one
datum every provided implementation carries: its message string
(`MsgErrorInfo::msg_`).  A `std::unique_ptr<IErrorInfo>` is modelled as
`Option ErrorInfo`, with `none` standing for the null pointer. -/
structure ErrorInfo where
  msg : String
deriving DecidableEq

namespace V1

/-- State of `kerror::Error` in `src/kerror.h`: fields `errno_`, the mutable
`checked_` flag, and the owned payload `info_`. -/
structure Error where
  errno_ : Int
  checked_ : Bool
  info_ : Option ErrorInfo
deriving DecidableEq

/-- Constructor `Error(error_t error, std::unique_ptr<IErrorInfo> info)`
(src/kerror.h:73): stores the code and payload, `checked_` starts false. -/
def Error.construct (error : Int) (info : Option ErrorInfo) : Error :=
  ⟨error, false, info⟩

/-- Default constructor `Error()` (src/kerror.h:80). -/
def Error.default : Error :=
  ⟨0, false, none⟩

/-- Member `is_success` (src/kerror.h:142):
`info_ == nullptr || errno_ == 0`. -/
def Error.is_success (e : Error) : Bool :=
  e.info_.isNone || e.errno_ == 0

/-- Private member `AbortIsChecked` (src/kerror.h:145-152), run by the
destructor: returns `true` exactly when the C++ code prints the diagnostic
to stderr and calls `abort()`, i.e. when `!checked_ && !is_success()`. -/
def Error.AbortIsChecked (e : Error) : Bool :=
  !e.checked_ && !e.is_success

/-- Conversion `operator bool` (src/kerror.h:121-128): performs
`checked_ = is_success(); return !is_success();`.  Result is the returned
boolean paired with the mutated receiver. -/
def Error.toBool (e : Error) : Bool × Error :=
  (!e.is_success, { e with checked_ := e.is_success })

/-- Member `no` (src/kerror.h:130-134): `checked_ = true; return errno_;`. -/
def Error.no (e : Error) : Int × Error :=
  (e.errno_, { e with checked_ := true })

/-- Member `info` (src/kerror.h:136-140): `checked_ = true;
return info_.get();`. -/
def Error.info (e : Error) : Option ErrorInfo × Error :=
  (e.info_, { e with checked_ := true })

/-- Member `IgnoreCheck` (src/kerror.h:119): `checked_ = true;`. -/
def Error.IgnoreCheck (e : Error) : Error :=
  { e with checked_ := true }

/-- Move assignment `operator=(Error &&other)` (src/kerror.h:100-114) for
`&other != this`.  It first runs `AbortIsChecked()` on the destination
(modelled by `none` when that aborts), then copies `errno_`, resets
`checked_` to `false`, steals `info_`, and finally sets `other.checked_ =
true; other.errno_ = 0;`.  Returns (new destination, new source). -/
def Error.moveAssign (dst src : Error) : Option (Error × Error) :=
  if dst.AbortIsChecked then none
  else some (⟨src.errno_, false, src.info_⟩, ⟨0, true, none⟩)

/-- Move constructor `Error(Error &&other)` (src/kerror.h:92-98): initialises
`errno_` from the source and `checked_` to `true` (the payload pointer is
default-null), then delegates to the move assignment. -/
def Error.moveCtor (src : Error) : Option (Error × Error) :=
  Error.moveAssign ⟨src.errno_, true, none⟩ src

/-- Total description of a completed V1 move: the destination receives the
source's code and payload with `checked_ = false`; the source is left as
code 0, checked, payload-free (src/kerror.h:105-111). -/
def Error.moveConstructed (src : Error) : Error × Error :=
  (⟨src.errno_, false, src.info_⟩, ⟨0, true, none⟩)

/-- Factory `MakeError<T>(error_t err, Args &&...args)` (src/kerror.h:160-164):
wraps `Error(err, unique_ptr<T>(args...))`. -/
def MakeError (err : Int) (info : Option ErrorInfo) : Error :=
  Error.construct err info

/-- Factory `MakeSuccess()` (src/kerror.h:166): `Error(0, nullptr)`. -/
def MakeSuccess : Error :=
  Error.construct 0 none

/-- Factory `makeError(error_t error)` (src/kerror.h:167):
`Error(error, nullptr)`. -/
def makeError (error : Int) : Error :=
  Error.construct error none

end V1

namespace V2

/-- Flag `IsErrorFlag` (src/unnamed/part_000:59-62), modelled as `Bool`
(`true` = `ON`). -/
def IsErrorFlag := Bool

/-- State of `kerror::Error` in `src/unnamed/part_000`: the owned payload
`info_`, the mutable `checked_` flag, and the discriminating `is_error_`. -/
structure Error where
  info_ : Option ErrorInfo
  checked_ : Bool
  is_error_ : Bool
deriving DecidableEq

/-- Constructor `Error(std::unique_ptr<IErrorInfo> info)`
(src/unnamed/part_000:76-81): stores the payload, `checked_ = false`,
`is_error_ = true` (whatever the pointer is, including null). -/
def Error.ofInfo (info : Option ErrorInfo) : Error :=
  ⟨info, false, true⟩

/-- Constructor `Error(IsErrorFlag is_error = OFF)`
(src/unnamed/part_000:88-93): null payload, `checked_ = false`,
`is_error_ = (ON == is_error)`. -/
def Error.ofFlag (is_error : Bool) : Error :=
  ⟨none, false, is_error⟩

/-- Member `is_success` (src/unnamed/part_000:143): `!is_error_`. -/
def Error.is_success (e : Error) : Bool :=
  !e.is_error_

/-- Member `is_error` (src/unnamed/part_000:144): `is_error_`. -/
def Error.is_error (e : Error) : Bool :=
  e.is_error_

/-- Private member `AbortIsChecked` (src/unnamed/part_000:147-154), run by
the destructor: `true` exactly when the C++ code prints the diagnostic and
calls `abort()`, i.e. when `!checked_ && is_error()`. -/
def Error.AbortIsChecked (e : Error) : Bool :=
  !e.checked_ && e.is_error

/-- Conversion `operator bool` (src/unnamed/part_000:128-135): performs
`checked_ = is_success(); return is_error();`. -/
def Error.toBool (e : Error) : Bool × Error :=
  (e.is_error, { e with checked_ := e.is_success })

/-- Member `info` (src/unnamed/part_000:137-141): `checked_ = true;
return info_.get();`. -/
def Error.info (e : Error) : Option ErrorInfo × Error :=
  (e.info_, { e with checked_ := true })

/-- Member `IgnoreCheck` (src/unnamed/part_000:126): `checked_ = true;`. -/
def Error.IgnoreCheck (e : Error) : Error :=
  { e with checked_ := true }

/-- Move assignment `operator=(Error &&other)` (src/unnamed/part_000:108-121)
for `&other != this`.  It first runs `AbortIsChecked()` on the destination
(`none` when that aborts), then sets `checked_ = false`, copies `is_error_`,
steals `info_`, and sets `other.checked_ = true` (the source keeps its
`is_error_`). -/
def Error.moveAssign (dst src : Error) : Option (Error × Error) :=
  if dst.AbortIsChecked then none
  else some (⟨src.info_, false, src.is_error_⟩, ⟨none, true, src.is_error_⟩)

/-- Move constructor `Error(Error &&other)` (src/unnamed/part_000:100-106):
initialises `checked_ = true` and `is_error_` from the source (payload
pointer default-null), then delegates to the move assignment. -/
def Error.moveCtor (src : Error) : Option (Error × Error) :=
  Error.moveAssign ⟨none, true, src.is_error_⟩ src

/-- Total description of a completed V2 move: the destination receives the
source's payload and discriminant with `checked_ = false`; the source is
left payload-free, checked, and keeps its `is_error_`
(src/unnamed/part_000:113-118). -/
def Error.moveConstructed (src : Error) : Error × Error :=
  (⟨src.info_, false, src.is_error_⟩, ⟨none, true, src.is_error_⟩)

/-- Factory `MakeError<T>(Args &&...args)` (src/unnamed/part_000:162-166). -/
def MakeError (info : Option ErrorInfo) : Error :=
  Error.ofInfo info

/-- Factory `MakeNoInfoError()` (src/unnamed/part_000:172-175):
`Error(IsErrorFlag::ON)` — a failure with no payload. -/
def MakeNoInfoError : Error :=
  Error.ofFlag true

/-- Factory `MakeSuccess()` (src/unnamed/part_000:177):
`Error(IsErrorFlag::OFF)`. -/
def MakeSuccess : Error :=
  Error.ofFlag false

/-- Factory `MakeMsgError(char const *msg)` / `MakeMsgError(std::string)`
(src/unnamed/part_000:216-223): wraps a `MsgErrorInfo` holding `msg`. -/
def MakeMsgError (msg : String) : Error :=
  Error.ofInfo (some ⟨msg⟩)

/-- Member `MsgErrorInfo::GetMessage` of part_000 (lines 205-208): returns
`std::move(msg_)`, i.e. yields the stored message and leaves the stored
string empty (the documented call-once sharp edge). -/
def MsgErrorInfo.GetMessage (m : ErrorInfo) : String × ErrorInfo :=
  (m.msg, ⟨""⟩)

/-- Rendering performed by `vsnprintf` in `MakeMsgErrorf`
(src/kerror.cc:8-18) for the integer conversions actually exercised: each
`%d` in the format consumes the next integer argument and is replaced by its
decimal rendering; all other characters are copied verbatim. -/
def vsnprintfD : List Char → List Int → List Char
  | [], _ => []
  | '%' :: 'd' :: rest, a :: args => (toString a).data ++ vsnprintfD rest args
  | c :: rest, args => c :: vsnprintfD rest args

/-- Factory `MakeMsgErrorf(char const *fmt, ...)` (src/kerror.cc:8-18):
renders the format into a 4096-byte buffer with `vsnprintf` (hence at most
4095 characters) and wraps the result with `MakeMsgError`. -/
def MakeMsgErrorf (fmt : String) (args : List Int) : Error :=
  MakeMsgError (String.mk (List.take 4095 (vsnprintfD fmt.data args)))

/-- Reachable `Error` states of the part_000 revision: every state a C++
program can put a `kerror::Error` into through the public constructors,
factories and member functions (boolean test, `info`, `IgnoreCheck`, moves).
Both outputs of a non-aborting move are reachable. -/
inductive Reachable : Error → Prop
  | ofInfo (i : Option ErrorInfo) : Reachable (Error.ofInfo i)
  | ofFlag (b : Bool) : Reachable (Error.ofFlag b)
  | toBoolStep (e : Error) : Reachable e → Reachable (e.toBool).snd
  | infoStep (e : Error) : Reachable e → Reachable (e.info).snd
  | ignoreStep (e : Error) : Reachable e → Reachable e.IgnoreCheck
  | moveDst (d s : Error) (p : Error × Error) : Reachable d → Reachable s →
      Error.moveAssign d s = some p → Reachable p.fst
  | moveSrc (d s : Error) (p : Error × Error) : Reachable d → Reachable s →
      Error.moveAssign d s = some p → Reachable p.snd
  | moveCtorDst (s : Error) (p : Error × Error) : Reachable s →
      Error.moveCtor s = some p → Reachable p.fst
  | moveCtorSrc (s : Error) (p : Error × Error) : Reachable s →
      Error.moveCtor s = some p → Reachable p.snd

/-- Invariant of the part_000 revision: every API-reachable `Error` that is
not a failure holds no payload (the converse is false, see
`MakeNoInfoError`). -/
theorem reachable_success_info_none (e : Error) (h : Reachable e) :
    e.is_error_ = false → e.info_ = none := by
  induction h with
  | ofInfo i => intro hh; simp [Error.ofInfo] at hh
  | ofFlag b => intro hh; simp [Error.ofFlag]
  | toBoolStep e _ ih => intro hh; exact ih hh
  | infoStep e _ ih => intro hh; exact ih hh
  | ignoreStep e _ ih => intro hh; exact ih hh
  | moveDst d s p _ _ heq ihd ihs =>
      rw [Error.moveAssign] at heq
      by_cases hab : d.AbortIsChecked = true
      · simp [hab] at heq
      · simp [hab] at heq
        intro hh
        rw [← heq] at hh ⊢
        simp at hh ⊢
        exact ihs hh
  | moveSrc d s p _ _ heq ihd ihs =>
      rw [Error.moveAssign] at heq
      by_cases hab : d.AbortIsChecked = true
      · simp [hab] at heq
      · simp [hab] at heq
        intro hh
        rw [← heq]
  | moveCtorDst s p _ heq ih =>
      rw [Error.moveCtor, Error.moveAssign] at heq
      simp [Error.AbortIsChecked] at heq
      intro hh
      rw [← heq] at hh ⊢
      simp at hh ⊢
      exact ih hh
  | moveCtorSrc s p _ heq ih =>
      rw [Error.moveCtor, Error.moveAssign] at heq
      simp [Error.AbortIsChecked] at heq
      intro hh
      rw [← heq]

end V2

/-- State of `kerror::ErrorOr<T>` in the part_000 revision
(src/unnamed/part_000:243-353).  The anonymous union is modelled by `store`,
holding the value of whichever member is currently constructed; `is_error_`
is the discriminant field, which the code maintains separately and which may
therefore disagree with `store`.  `ub` becomes `true` when an operation
reads or assigns through a union member that is not the constructed one
(undefined behaviour in the C++ source); `illFormed` becomes `true` when an
operation executes the statement `obj_ = std::move(other.obj)`
(src/unnamed/part_000:323, src/kerror.h:311), which names a data member
`obj` that does not exist and cannot compile when instantiated.  After
either flag is set the remaining fields are nominal. -/
structure ErrorOr (T : Type) where
  store : V2.Error ⊕ T
  is_error_ : Bool
  ub : Bool
  illFormed : Bool
deriving DecidableEq

/-- Constructor `ErrorOr(Error error)` (src/unnamed/part_000:246-250):
move-constructs the `error_` union member from the by-value argument and
sets `is_error_ = true`.  (The moved-from argument is left checked, so its
destruction at the call boundary never aborts.) -/
def ErrorOr.fromError (T : Type) (e : V2.Error) : ErrorOr T :=
  ⟨Sum.inl (V2.Error.moveConstructed e).fst, true, false, false⟩

/-- Constructor `ErrorOr(T obj)` (src/unnamed/part_000:252-256):
move-constructs the `obj_` union member and sets `is_error_ = false`. -/
def ErrorOr.fromObj (T : Type) (v : T) : ErrorOr T :=
  ⟨Sum.inr v, false, false, false⟩

/-- Conversion `operator bool` (src/unnamed/part_000:329):
`is_error_ && !error_.is_success()`.  Short-circuits when `is_error_` is
false; otherwise reads `error_`, which is a dead-member read if the `obj_`
member is the constructed one.  `Error::is_success` is const, so nothing is
marked checked. -/
def ErrorOr.toBool {T : Type} (r : ErrorOr T) : Bool × ErrorOr T :=
  if r.is_error_ then
    match r.store with
    | Sum.inl e => (!(V2.Error.is_success e), r)
    | Sum.inr _ => (false, { r with ub := true })
  else
    (false, r)

/-- Member `info` (src/unnamed/part_000:331): `return error_.info();`,
called unconditionally on the `error_` member — a dead-member read when the
success branch is live. -/
def ErrorOr.info {T : Type} (r : ErrorOr T) : Option ErrorInfo × ErrorOr T :=
  match r.store with
  | Sum.inl e =>
      ((V2.Error.info e).fst, { r with store := Sum.inl (V2.Error.info e).snd })
  | Sum.inr _ => (none, { r with ub := true })

/-- Destructor `~ErrorOr()` (src/unnamed/part_000:258-265): dispatches on
`is_error_` and destroys that branch.  First component: whether the process
aborts (the `Error` destructor's check fires); second: whether undefined
behaviour occurred (the destroyed member was not the constructed one). -/
def ErrorOr.destruct {T : Type} (r : ErrorOr T) : Bool × Bool :=
  if r.is_error_ then
    match r.store with
    | Sum.inl e => (V2.Error.AbortIsChecked e, r.ub)
    | Sum.inr _ => (false, true)
  else
    match r.store with
    | Sum.inl _ => (false, true)
    | Sum.inr _ => (false, r.ub)

/-- Move assignment `operator=(ErrorOr &&other)`
(src/unnamed/part_000:308-327, identical in src/kerror.h:296-315) for
`&other != this`.  Equal discriminants: assigns through the live branch
(`Error` move assignment may abort, hence `Option`).  Different
discriminants: executes `is_error_ = !other.is_error_` — which leaves the
destination's discriminant unchanged — and then assigns through the
destination's union member selected by `other.is_error_`, which is exactly
the member that is *not* constructed (`ub`), or, when the source holds the
success branch, executes `obj_ = std::move(other.obj)` which does not
compile (`illFormed`). -/
def ErrorOr.moveAssign {T : Type} (dst src : ErrorOr T) :
    Option (ErrorOr T × ErrorOr T) :=
  if dst.is_error_ == src.is_error_ then
    if dst.is_error_ then
      match dst.store, src.store with
      | Sum.inl ed, Sum.inl es =>
          match V2.Error.moveAssign ed es with
          | none => none
          | some p =>
              some ({ dst with store := Sum.inl p.fst },
                    { src with store := Sum.inl p.snd })
      | _, _ => some ({ dst with ub := true }, { src with ub := true })
    else
      match dst.store, src.store with
      | Sum.inr _, Sum.inr vs =>
          some ({ dst with store := Sum.inr vs }, src)
      | _, _ => some ({ dst with ub := true }, { src with ub := true })
  else
    if src.is_error_ then
      some ({ dst with is_error_ := !src.is_error_, ub := true }, src)
    else
      some ({ dst with is_error_ := !src.is_error_, illFormed := true },
            { src with illFormed := true })

/-- State of `kerror::ErrorOr<T>` as constructed by the kerror.h revision
(src/kerror.h:225-338).  `readUninit` records that a constructor read the
`is_error_` field before any constructor of `ErrorOr` had initialised it;
`deadDestroy` records that the constructor called `detail::destroy_` on the
union member that was never constructed. -/
structure ErrorOrV1 (T : Type) where
  store : V1.Error ⊕ T
  is_error_ : Bool
  readUninit : Bool
  deadDestroy : Bool

/-- Constructor `ErrorOr(Error error)` of src/kerror.h:228-235: after
move-constructing `error_` it executes `if (!is_error_)
detail::destroy_(obj_); is_error_ = true;` — reading the still-uninitialised
discriminant (modelled by the indeterminate bit `junk`) and, when that
indeterminate bit is false, destroying the never-constructed `obj_`. -/
def ErrorOrV1.fromError (T : Type) (junk : Bool) (e : V1.Error) :
    ErrorOrV1 T :=
  ⟨Sum.inl (V1.Error.moveConstructed e).fst, true, true, !junk⟩

/-- Constructor `ErrorOr(T obj)` of src/kerror.h:237-244: after
move-constructing `obj_` it executes `if (is_error_)
detail::destroy_(error_); is_error_ = false;` — reading the uninitialised
discriminant and, when the indeterminate bit is true, running the `Error`
destructor on never-constructed storage. -/
def ErrorOrV1.fromObj (T : Type) (junk : Bool) (v : T) : ErrorOrV1 T :=
  ⟨Sum.inr v, false, true, junk⟩

/-- C1: for every Error holding a failure payload, destruction while the
checked flag is false runs the diagnostic-and-abort branch of
`AbortIsChecked` (the destructor, src/kerror.h:87 and part_000:95, calls
it); destruction of a success Error, or of a checked failure Error, never
aborts.  Stated for both revisions. -/
theorem claim1_unchecked_failure_aborts :
    (∀ e : V2.Error, e.checked_ = false → e.info_.isSome = true →
      e.is_error_ = true → e.AbortIsChecked = true)
    ∧ (∀ e : V2.Error, e.is_success = true → e.AbortIsChecked = false)
    ∧ (∀ e : V2.Error, e.checked_ = true → e.AbortIsChecked = false)
    ∧ (∀ e : V1.Error, e.checked_ = false → e.info_.isSome = true →
      e.is_success = false → e.AbortIsChecked = true)
    ∧ (∀ e : V1.Error, e.is_success = true → e.AbortIsChecked = false)
    ∧ (∀ e : V1.Error, e.checked_ = true → e.AbortIsChecked = false) := by
  refine ⟨fun e h1 h2 h3 => ?_, fun e h => ?_, fun e h => ?_,
          fun e h1 h2 h3 => ?_, fun e h => ?_, fun e h => ?_⟩
  · simp [V2.Error.AbortIsChecked, V2.Error.is_error, h1, h3]
  · simp [V2.Error.is_success] at h
    simp [V2.Error.AbortIsChecked, V2.Error.is_error, h]
  · simp [V2.Error.AbortIsChecked, h]
  · simp [V1.Error.AbortIsChecked, h1, h3]
  · simp [V1.Error.AbortIsChecked, h]
  · simp [V1.Error.AbortIsChecked, h]

/-- C1 witness: an unchecked failure with payload aborts in both revisions;
an unchecked success does not. -/
theorem claim1_witness :
    V2.Error.AbortIsChecked ⟨some ⟨"m"⟩, false, true⟩ = true
    ∧ V2.Error.AbortIsChecked ⟨none, false, false⟩ = false
    ∧ V1.Error.AbortIsChecked ⟨2, false, some ⟨"m"⟩⟩ = true :=
  ⟨claim1_unchecked_failure_aborts.1 _ rfl rfl rfl,
   claim1_unchecked_failure_aborts.2.1 _ rfl,
   claim1_unchecked_failure_aborts.2.2.2.1 _ rfl rfl (by decide)⟩

/-- C2 counterexample: evaluating the failure `MakeMsgError "x"` in boolean
context returns true but leaves `checked_` false (`operator bool` performs
`checked_ = is_success()`), so destroying it right after the test still
aborts — contradicting the claim that the boolean test marks the value
checked and makes subsequent destruction safe. -/
theorem claim2_counterexample :
    ((V2.MakeMsgError "x").toBool).fst = true
    ∧ ((V2.MakeMsgError "x").toBool).snd.checked_ = false
    ∧ ((V2.MakeMsgError "x").toBool).snd.AbortIsChecked = true := by
  decide

/-- C2 amended: the boolean test sets `checked_` to `is_success()`, so it
marks the value checked exactly when the value is a success; after a boolean
test, destruction aborts precisely when the value is a failure.  Stated for
both revisions. -/
theorem claim2_bool_marks_checked_only_on_success :
    (∀ e : V2.Error, (e.toBool).fst = e.is_error_
      ∧ (e.toBool).snd.checked_ = e.is_success
      ∧ (e.toBool).snd.AbortIsChecked = e.is_error_)
    ∧ (∀ e : V1.Error, (e.toBool).fst = !e.is_success
      ∧ (e.toBool).snd.checked_ = e.is_success
      ∧ (e.toBool).snd.AbortIsChecked = !e.is_success) := by
  constructor
  · intro e
    refine ⟨rfl, rfl, ?_⟩
    simp [V2.Error.toBool, V2.Error.AbortIsChecked, V2.Error.is_success,
      V2.Error.is_error]
  · intro e
    refine ⟨rfl, rfl, ?_⟩
    rcases e with ⟨n, c, i⟩
    cases hb : (Option.isNone i || (n == 0)) <;>
      simp [V1.Error.toBool, V1.Error.AbortIsChecked, V1.Error.is_success, hb]

/-- C3 counterexample: take the failure `A = (MakeMsgError "m").info).snd`,
which is checked; moving it into `B` yields `B` with `checked_ = false`, so
`B`'s checked state does not equal `A`'s state immediately before the move
(the move assignment sets `checked_ = false` unconditionally,
part_000:113). -/
theorem claim3_counterexample :
    (((V2.MakeMsgError "m").info).snd.checked_ = true)
    ∧ V2.Error.moveCtor (((V2.MakeMsgError "m").info).snd)
      = some (⟨some ⟨"m"⟩, false, true⟩, ⟨none, true, true⟩)
    ∧ ¬((V2.Error.checked_ ⟨some ⟨"m"⟩, false, true⟩)
        = (((V2.MakeMsgError "m").info).snd.checked_)) := by
  decide

/-- C3 amended: after moving a failure A into B, destroying the now-empty A
never aborts regardless of A's prior checked state (the source is marked
checked), but B does NOT inherit A's checked state: B's `checked_` is
`false` unconditionally after the move, while B's payload and discriminant
come from A.  Stated for both revisions, for move construction and
(precondition-satisfying) move assignment. -/
theorem claim3_move_transfers :
    (∀ a : V2.Error, V2.Error.moveCtor a
        = some (⟨a.info_, false, a.is_error_⟩, ⟨none, true, a.is_error_⟩))
    ∧ (∀ a : V2.Error, ((V2.Error.moveConstructed a).snd).AbortIsChecked = false)
    ∧ (∀ a : V2.Error, ((V2.Error.moveConstructed a).fst).checked_ = false
        ∧ ((V2.Error.moveConstructed a).fst).is_error_ = a.is_error_
        ∧ ((V2.Error.moveConstructed a).fst).info_ = a.info_)
    ∧ (∀ dst src : V2.Error, dst.AbortIsChecked = false →
        V2.Error.moveAssign dst src
          = some (⟨src.info_, false, src.is_error_⟩, ⟨none, true, src.is_error_⟩))
    ∧ (∀ a : V1.Error, V1.Error.moveCtor a
        = some (⟨a.errno_, false, a.info_⟩, ⟨0, true, none⟩))
    ∧ (∀ dst src : V1.Error, dst.AbortIsChecked = false →
        V1.Error.moveAssign dst src
          = some (⟨src.errno_, false, src.info_⟩, ⟨0, true, none⟩)) := by
  refine ⟨fun a => ?_, fun a => rfl, fun a => ⟨rfl, rfl, rfl⟩,
          fun dst src h => ?_, fun a => ?_, fun dst src h => ?_⟩
  · simp [V2.Error.moveCtor, V2.Error.moveAssign, V2.Error.AbortIsChecked]
  · simp [V2.Error.moveAssign, h]
  · simp [V1.Error.moveCtor, V1.Error.moveAssign, V1.Error.AbortIsChecked]
  · simp [V1.Error.moveAssign, h]

/-- C3 witness: move-assigning a failure into a fresh (unchecked success)
destination succeeds and produces the stated states, in both revisions. -/
theorem claim3_witness :
    V2.Error.moveAssign ⟨none, false, false⟩ (V2.MakeMsgError "w")
      = some (⟨some ⟨"w"⟩, false, true⟩, ⟨none, true, true⟩)
    ∧ V1.Error.moveAssign ⟨0, false, none⟩ (V1.MakeError 3 (some ⟨"w"⟩))
      = some (⟨3, false, some ⟨"w"⟩⟩, ⟨0, true, none⟩) :=
  ⟨claim3_move_transfers.2.2.2.1 _ _ (by decide),
   claim3_move_transfers.2.2.2.2.2 _ _ (by decide)⟩

/-- C4: evaluation of the `ErrorOr` move assignment at a success-holding
destination and a failure-holding source.  The code executes
`is_error_ = !other.is_error_`, which leaves the destination discriminant
unchanged (`false`, still claiming the success branch) instead of updating
it to the source's (`true`), and then assigns through the destination's
dead `error_` union member without destroying the live branch or
placement-constructing the new one (`ub = true`).  In the opposite
direction the statement `obj_ = std::move(other.obj)` names a member that
does not exist (`illFormed = true`). -/
theorem claim4_move_assign_mismatch_bug :
    ErrorOr.moveAssign (ErrorOr.fromObj Nat 7)
        (ErrorOr.fromError Nat V2.MakeNoInfoError)
      = some (⟨Sum.inr 7, false, true, false⟩,
              ⟨Sum.inl ⟨none, false, true⟩, true, false, false⟩)
    ∧ ((ErrorOr.moveAssign (ErrorOr.fromObj Nat 7)
          (ErrorOr.fromError Nat V2.MakeNoInfoError)).map
        (fun p => p.fst.is_error_) ≠ some true)
    ∧ (ErrorOr.moveAssign (ErrorOr.fromError Nat V2.MakeNoInfoError)
          (ErrorOr.fromObj Nat 7)).map (fun p => p.fst.illFormed)
      = some true := by
  refine ⟨by decide, by decide, by decide⟩

/-- C5 counterexample: a failure-holding `ErrorOr<Nat>` evaluated in boolean
context returns true but is left completely unchanged — in particular the
contained Error stays unchecked — so destroying it right after the test
aborts, contradicting the claim. -/
theorem claim5_counterexample :
    ((ErrorOr.fromError Nat (V2.MakeMsgError "e")).toBool).fst = true
    ∧ ((ErrorOr.fromError Nat (V2.MakeMsgError "e")).toBool).snd
        = ErrorOr.fromError Nat (V2.MakeMsgError "e")
    ∧ ((((ErrorOr.fromError Nat (V2.MakeMsgError "e")).toBool).snd).destruct).fst
        = true := by
  decide

/-- C5 amended: `ErrorOr<T>::operator bool` observes the discriminant and
the failure branch's `is_success()` but, unlike the bare Error's boolean
test, performs no write at all: the contained Error is not marked checked.
Consequently a failure-holding `ErrorOr<T>` that is only tested in boolean
context and then destroyed aborts; extracting `info()` (which marks the
contained Error checked) before destruction prevents the abort. -/
theorem claim5_bool_does_not_mark_checked :
    (∀ e : V2.Error,
      ((ErrorOr.fromError Nat e).toBool).snd = ErrorOr.fromError Nat e)
    ∧ (∀ e : V2.Error, ((ErrorOr.fromError Nat e).toBool).fst = e.is_error_)
    ∧ (∀ e : V2.Error,
      ((((ErrorOr.fromError Nat e).toBool).snd).destruct).fst = e.is_error_)
    ∧ (∀ e : V2.Error,
      ((((ErrorOr.fromError Nat e).info).snd).destruct).fst = false) := by
  refine ⟨fun e => rfl, fun e => ?_, fun e => ?_, fun e => rfl⟩
  · rcases e with ⟨i, c, b⟩
    cases b <;> rfl
  · rcases e with ⟨i, c, b⟩
    cases b <;> rfl

/-- C6: `MakeMsgError "abc"` is a failure whose payload message is exactly
"abc", and `MakeMsgErrorf "val=%d" 5` (src/kerror.cc:8-18) is a failure
whose payload message is exactly "val=5"; the first `GetMessage` on the
payload returns the stored message verbatim. -/
theorem claim6_message_fidelity :
    ((V2.MakeMsgError "abc").info_ = some ⟨"abc"⟩
      ∧ (V2.MakeMsgError "abc").is_error = true)
    ∧ ((V2.MakeMsgErrorf "val=%d" [5]).info_ = some ⟨"val=5"⟩
      ∧ (V2.MakeMsgErrorf "val=%d" [5]).is_error = true)
    ∧ (V2.MsgErrorInfo.GetMessage ⟨"abc"⟩).fst = "abc" := by
  decide

/-- C7 counterexample: in the kerror.h revision, `MakeError<T>(0, payload)`
yields a value that reports success (`is_success()` is true because
`errno_ == 0`) while holding a payload, and `info()` on it returns that
non-null payload rather than a null/empty view. -/
theorem claim7_counterexample :
    (V1.MakeError 0 (some ⟨"x"⟩)).is_success = true
    ∧ ((V1.MakeError 0 (some ⟨"x"⟩)).info).fst = some ⟨"x"⟩
    ∧ ¬(((V1.MakeError 0 (some ⟨"x"⟩)).info).fst = none) := by
  decide

/-- C7 amended: `info()` is well-defined on every Error and always marks the
value checked; it returns exactly the stored payload pointer.  In the
part_000 revision every API-reachable success value holds no payload, so
`info()` on a reachable success returns null; in the kerror.h revision an
Error built with code 0 and a payload reports success yet `info()` returns
that payload. -/
theorem claim7_info_on_success :
    (∀ e : V1.Error, ((e.info).fst = e.info_) ∧ ((e.info).snd.checked_ = true))
    ∧ (∀ e : V2.Error, ((e.info).fst = e.info_) ∧ ((e.info).snd.checked_ = true))
    ∧ (∀ e : V2.Error, V2.Reachable e → e.is_success = true →
        (e.info).fst = none) := by
  refine ⟨fun e => ⟨rfl, rfl⟩, fun e => ⟨rfl, rfl⟩, fun e h hs => ?_⟩
  have hinv := V2.reachable_success_info_none e h
  simp [V2.Error.is_success] at hs
  simp [V2.Error.info]
  exact hinv hs

/-- C7 witness: `info()` on the reachable success `MakeSuccess()` returns
null. -/
theorem claim7_witness : ((V2.MakeSuccess).info).fst = none :=
  claim7_info_on_success.2.2 V2.MakeSuccess (V2.Reachable.ofFlag false) rfl

/-- C8 counterexample: the public factory `MakeNoInfoError()`
(part_000:172-175) produces an Error that lacks a payload yet reports
failure, refuting "payload absence if and only if success". -/
theorem claim8_counterexample :
    V2.MakeNoInfoError.info_ = none
    ∧ V2.MakeNoInfoError.is_success = false
    ∧ V2.MakeNoInfoError.is_error = true := by
  decide

/-- C8 amended: neither revision realises "absence ⇔ success" as a
biconditional.  In part_000, every API-reachable success has no payload,
but `MakeNoInfoError()` is a payload-free failure (absence without
success).  In kerror.h, payload absence implies success by definition of
`is_success`, but `MakeError<T>(0, payload)` holds a payload while
reporting success. -/
theorem claim8_payload_success_relation :
    (∀ e : V2.Error, V2.Reachable e → e.is_success = true → e.info_ = none)
    ∧ (V2.MakeNoInfoError.info_ = none ∧ V2.MakeNoInfoError.is_success = false)
    ∧ (∀ e : V1.Error, e.info_ = none → e.is_success = true)
    ∧ ((V1.MakeError 0 (some ⟨"y"⟩)).info_.isSome = true
       ∧ (V1.MakeError 0 (some ⟨"y"⟩)).is_success = true) := by
  refine ⟨fun e h hs => ?_, by decide, fun e h => ?_, by decide⟩
  · have hinv := V2.reachable_success_info_none e h
    simp [V2.Error.is_success] at hs
    exact hinv hs
  · simp [V1.Error.is_success, h]

/-- C8 witness: the reachable success `MakeSuccess()` of part_000 has no
payload, and a payload-free kerror.h Error reports success. -/
theorem claim8_witness :
    V2.MakeSuccess.info_ = none ∧ V1.MakeSuccess.is_success = true :=
  ⟨claim8_payload_success_relation.1 V2.MakeSuccess (V2.Reachable.ofFlag false) rfl,
   claim8_payload_success_relation.2.2.1 V1.MakeSuccess rfl⟩

/-- C9: evaluation of the `ErrorOr` constructors.  In the kerror.h revision
both converting constructors read the still-uninitialised `is_error_`
member and, depending on its indeterminate value (`junk`), call
`detail::destroy_` on the union member that was never constructed — here
shown at `junk = false` for the Error constructor and `junk = true` for the
value constructor.  The part_000 revision's constructors initialise exactly
one branch and set the discriminant without reading it (no undefined
behaviour). -/
theorem claim9_ctor_reads_uninitialized :
    ((ErrorOrV1.fromError Nat false (V1.makeError 3)).readUninit = true
      ∧ (ErrorOrV1.fromError Nat false (V1.makeError 3)).deadDestroy = true)
    ∧ ((ErrorOrV1.fromObj Nat true 7).readUninit = true
      ∧ (ErrorOrV1.fromObj Nat true 7).deadDestroy = true)
    ∧ (∀ e : V2.Error, (ErrorOr.fromError Nat e).ub = false
      ∧ (ErrorOr.fromError Nat e).is_error_ = true)
    ∧ (∀ v : Nat, (ErrorOr.fromObj Nat v).ub = false
      ∧ (ErrorOr.fromObj Nat v).is_error_ = false) :=
  ⟨⟨rfl, rfl⟩, ⟨rfl, rfl⟩, fun _ => ⟨rfl, rfl⟩, fun _ => ⟨rfl, rfl⟩⟩

/-- C10: `no()` (src/kerror.h:130-134) marks the value checked and returns
the stored error code, which for any Error built by the public constructor
is the code supplied at construction and for `MakeSuccess()` is 0; after
`no()` the destructor never aborts. -/
theorem claim10_no_marks_checked :
    (∀ e : V1.Error, ((e.no).fst = e.errno_)
      ∧ ((e.no).snd.checked_ = true)
      ∧ ((e.no).snd.AbortIsChecked = false))
    ∧ (∀ (err : Int) (info : Option ErrorInfo),
        ((V1.Error.construct err info).no).fst = err)
    ∧ ((V1.MakeSuccess.no).fst = 0) :=
  ⟨fun _ => ⟨rfl, rfl, rfl⟩, fun _ _ => rfl, rfl⟩

end Kerror
